import Mathlib

/-!
Verification of the distributed-coordination spec of this repository
(pytorch-lightning excerpt) against a shallow embedding of its code.

The embedding covers:
* the XLA topology environment (its behaviour is pinned by
  `tests/plugins/environments/test_xla_environment.py`; the class body
  itself is not part of the excerpt, so the getters are modelled from the
  spec and from the exact assertions of that test),
* the collective `reduce` semantics (modelled from the spec),
* the checkpoint save / find-latest / restore protocol (modelled from the
  spec),
* `Auth.__post_init__`, `Auth.save`, `Auth.load` from
  `src/lightning_app/utilities/login.py`,
* `_validate_name` from `src/lightning_app/cli/cmd_install.py`.
-/

/-- Python exception classes that the modelled code can raise, as error
values of an `Except`. -/
inductive PyError where
  | keyError
  | valueError
  | configurationError
  | systemExit
deriving DecidableEq, Repr

/-- A process environment: an association list from variable names to
string values, as captured by `os.environ`. -/
abbrev EnvVars : Type := List (String × String)

/-- Lookup of an environment variable, `os.environ.get(k)`. -/
def EnvVars.get (e : EnvVars) (k : String) : Option String :=
  List.lookup k e

/-- Digit-string parsing, the fragment of Python `int(s)` exercised by the
code: a non-empty all-digit string maps to its value, anything else is a
`ValueError`. -/
def parseDigits : List Char → Nat → Option Nat
  | [], acc => some acc
  | c :: cs, acc =>
      if c.isDigit then parseDigits cs (acc * 10 + (c.toNat - 48)) else none

/-- Python `int(s)` on the strings the code reads from the environment. -/
def pyInt (s : String) : Option Nat :=
  match s.data with
  | [] => none
  | cs => parseDigits cs 0

/-- Read an integer environment variable with a default, the
`int(os.environ.get(k, d))` pattern: absent key yields the default,
a present but non-numeric value is a `ValueError`. -/
def EnvVars.getNat (e : EnvVars) (k : String) (d : Nat) : Except PyError Nat :=
  match e.get k with
  | none => .ok d
  | some s =>
      match pyInt s with
      | some n => .ok n
      | none => .error .valueError

namespace XLAEnv

/-- Discovery key for the main address, `TPU_MESH_CONTROLLER_ADDRESS`. -/
def addressKey : String := "TPU_MESH_CONTROLLER_ADDRESS"

/-- Discovery key for the main port, `TPU_MESH_CONTROLLER_PORT`. -/
def portKey : String := "TPU_MESH_CONTROLLER_PORT"

/-- Discovery key for the world size, `XRT_SHARD_WORLD_SIZE`. -/
def worldSizeKey : String := "XRT_SHARD_WORLD_SIZE"

/-- Discovery key for the global rank, `XRT_SHARD_ORDINAL`. -/
def globalRankKey : String := "XRT_SHARD_ORDINAL"

/-- Discovery key for the local rank, `XRT_SHARD_LOCAL_ORDINAL`. -/
def localRankKey : String := "XRT_SHARD_LOCAL_ORDINAL"

/-- Discovery key for the node rank, `XRT_HOST_ORDINAL`. -/
def nodeRankKey : String := "XRT_HOST_ORDINAL"

end XLAEnv

/-- Modelled from the spec: the `XLAEnvironment` topology variant.  Its
class body is outside the excerpt; the model follows spec section 4.1 and
the repository test `test_xla_environment.py`, which pins every observable
used below: the getters read the `TPU_MESH_CONTROLLER_*` / `XRT_*`
discovery keys (with standalone defaults 1, 0, 0, 0 for the rank fields),
`creates_processes_externally` is false, and `set_global_rank` /
`set_world_size` never change the reported values (spec section 9 records
that `global_rank()` stays 0 after `set_global_rank(100)` in the tested
path).  `collectiveIssued` tracks whether a collective operation has been
issued, so that before/after-collective statements are expressible. -/
structure XLAEnvironment where
  vars : EnvVars
  collectiveIssued : Bool
deriving Repr, DecidableEq

namespace XLAEnvironment

/-- Construct the environment at process start: it captures the process
environment, and no collective operation has been issued yet. -/
def construct (e : EnvVars) : XLAEnvironment :=
  { vars := e, collectiveIssued := false }

/-- The `main_address` property: `os.environ["TPU_MESH_CONTROLLER_ADDRESS"]`,
a `KeyError` when the key is absent. -/
def main_address (s : XLAEnvironment) : Except PyError String :=
  match s.vars.get XLAEnv.addressKey with
  | some a => .ok a
  | none => .error .keyError

/-- The `main_port` property:
`int(os.environ["TPU_MESH_CONTROLLER_PORT"])`. -/
def main_port (s : XLAEnvironment) : Except PyError Nat :=
  match s.vars.get XLAEnv.portKey with
  | some p =>
      match pyInt p with
      | some n => .ok n
      | none => .error .valueError
  | none => .error .keyError

/-- `world_size()`: the `XRT_SHARD_WORLD_SIZE` key, defaulting to 1. -/
def world_size (s : XLAEnvironment) : Except PyError Nat :=
  s.vars.getNat XLAEnv.worldSizeKey 1

/-- `global_rank()`: the `XRT_SHARD_ORDINAL` key, defaulting to 0. -/
def global_rank (s : XLAEnvironment) : Except PyError Nat :=
  s.vars.getNat XLAEnv.globalRankKey 0

/-- `local_rank()`: the `XRT_SHARD_LOCAL_ORDINAL` key, defaulting to 0. -/
def local_rank (s : XLAEnvironment) : Except PyError Nat :=
  s.vars.getNat XLAEnv.localRankKey 0

/-- `node_rank()`: the `XRT_HOST_ORDINAL` key, defaulting to 0. -/
def node_rank (s : XLAEnvironment) : Except PyError Nat :=
  s.vars.getNat XLAEnv.nodeRankKey 0

/-- `set_global_rank(rank)`: ignored in the tested variant, the state is
returned unchanged. -/
def set_global_rank (s : XLAEnvironment) (_rank : Nat) : XLAEnvironment :=
  s

/-- `set_world_size(size)`: ignored in the tested variant, the state is
returned unchanged. -/
def set_world_size (s : XLAEnvironment) (_size : Nat) : XLAEnvironment :=
  s

/-- `creates_processes_externally`: false for this variant. -/
def creates_processes_externally (_s : XLAEnvironment) : Bool :=
  false

/-- Issuing a collective operation marks the environment as having issued
one (the freeze point of spec section 4.1). -/
def issueCollective (s : XLAEnvironment) : XLAEnvironment :=
  { s with collectiveIssued := true }

end XLAEnvironment

/-- The exact environment injected by
`test_attributes_from_environment_variables`. -/
def xlaTestVars : EnvVars :=
  [(XLAEnv.addressKey, "1.2.3.4"),
   (XLAEnv.portKey, "500"),
   (XLAEnv.worldSizeKey, "1"),
   (XLAEnv.globalRankKey, "0"),
   (XLAEnv.localRankKey, "2"),
   (XLAEnv.nodeRankKey, "3")]


/-- Modelled from the spec: the `ReduceOp` value type, enumerated over
SUM, AVG, MIN, MAX. -/
inductive ReduceOp where
  | sum
  | avg
  | min
  | max
deriving DecidableEq, Repr

namespace CollectiveBackend

/-- Modelled from the spec: the combination step of `reduce` — one
contributed value per rank, combined in rank order (the list is ordered by
rank), for deterministic behaviour under SUM/AVG.  The strategy code that
performs the reduction is outside the excerpt. -/
def reduceCombine : ReduceOp → List ℚ → ℚ
  | .sum, cs => cs.foldl (· + ·) 0
  | .avg, cs => cs.foldl (· + ·) 0 / (cs.length : ℚ)
  | .min, cs =>
      match cs with
      | [] => 0
      | c :: rest => rest.foldl Min.min c
  | .max, cs =>
      match cs with
      | [] => 0
      | c :: rest => rest.foldl Max.max c

/-- Modelled from the spec: `reduce` — every rank receives the value
combined over the per-rank contributions in rank order; the result a rank
observes does not depend on which rank it is. -/
def reduce (contribs : List ℚ) (op : ReduceOp) (_rank : Nat) : ℚ :=
  reduceCombine op contribs

end CollectiveBackend

/-- Modelled from the spec: a file of the checkpoint directory — a version
number embedded in the filename, a committed flag (false for transient
temporary files still being written), and the stored payload. -/
structure CkptEntry (α : Type) where
  version : Nat
  committed : Bool
  payload : α
deriving DecidableEq, Repr

/-- Modelled from the spec: a checkpoint directory, listed in creation
order. -/
abbrev CkptDir (α : Type) : Type := List (CkptEntry α)

/-- Checkpoint-coordinator failures from the spec's error taxonomy. -/
inductive CkptError where
  | noCheckpointFound
  | corruptCheckpoint
deriving DecidableEq, Repr

namespace CheckpointCoordinator

/-- The committed filename embedding a version number. -/
def pathFor (v : Nat) : String :=
  "checkpoint_" ++ toString v ++ ".ckpt"

/-- The committed entry with the maximum version, ignoring
temporary/partial files; used by `find_latest` and `restore`. -/
def latestCommitted {α : Type} : CkptDir α → Option (CkptEntry α)
  | [] => none
  | e :: rest =>
      match latestCommitted rest with
      | none => if e.committed then some e else none
      | some best => if e.committed && best.version < e.version then some e else some best

/-- The maximum version observed in the directory (0 when empty),
temporary files included. -/
def maxVersion {α : Type} : CkptDir α → Nat
  | [] => 0
  | e :: rest => Nat.max e.version (maxVersion rest)

/-- Modelled from the spec: `find_latest` — scans the directory, parses
versions from committed filenames, returns the path with the maximum
fully-committed version, never a temporary file. -/
def find_latest {α : Type} (d : CkptDir α) : Option String :=
  (latestCommitted d).map (fun e => pathFor e.version)

/-- Modelled from the spec: `save(state)` — rank 0 writes to a temporary
file and atomically renames it, so the new record appears as a committed
entry whose version is strictly greater than any previously observed
version. -/
def save {α : Type} (d : CkptDir α) (state : α) : CkptDir α :=
  d ++ [⟨maxVersion d + 1, true, state⟩]

/-- Modelled from the spec: `restore()` — reads the latest committed
record and yields its payload; an empty/absent checkpoint directory is
`NoCheckpointFound`, never a silent default state. -/
def restore {α : Type} (d : CkptDir α) : Except CkptError α :=
  match latestCommitted d with
  | some e => .ok e.payload
  | none => .error .noCheckpointFound

end CheckpointCoordinator

namespace Auth

/-- The credential triple stored in the secrets file: the JSON object
written by `Auth.save` with keys `username`, `user_id`, `api_key`. -/
structure Creds where
  username : String
  user_id : String
  api_key : String
deriving DecidableEq, Repr

/-- The fields of the `Auth` dataclass after `__post_init__`: each is the
looked-up environment value (possibly absent), plus the `_with_env_var`
flag. -/
structure State where
  username : Option String
  user_id : Option String
  api_key : Option String
  with_env_var : Bool
deriving DecidableEq, Repr

/-- Python truthiness of an optional string: `None` and `""` are falsy. -/
def truthy : Option String → Bool
  | none => false
  | some s => !(s == "")

/-- `Auth.__post_init__` (login.py lines 42-52): each field is overwritten
with `os.environ.get(key)`, `_with_env_var = bool(user_id and api_key)`,
and a `ValueError` is raised when `api_key` is truthy and `user_id` is
not. -/
def post_init (env : EnvVars) : Except PyError State :=
  let username := env.get "LIGHTNING_USERNAME"
  let user_id := env.get "LIGHTNING_USER_ID"
  let api_key := env.get "LIGHTNING_API_KEY"
  if truthy api_key && !truthy user_id then
    .error .valueError
  else
    .ok ⟨username, user_id, api_key, truthy user_id && truthy api_key⟩

/-- `Auth.save` (login.py lines 70-86): writes the JSON object
`{username, user_id, api_key}` to the secrets file (the `token` argument
is not persisted) and updates the three fields; returns the new file
content and the updated object.  The Python parameter order
`token, user_id, api_key, username` is kept. -/
def save (s : State) (_token : String) (user_id : String) (api_key : String)
    (username : String) : Option Creds × State :=
  (some ⟨username, user_id, api_key⟩,
   { s with
      username := some username
      user_id := some user_id
      api_key := some api_key })

/-- `Auth.load` (login.py lines 54-68): returns `False` when the secrets
file does not exist; otherwise sets each field from the stored object and
returns `True`. -/
def load (s : State) (file : Option Creds) : Bool × State :=
  match file with
  | none => (false, s)
  | some c =>
      (true,
       { s with
          username := some c.username
          user_id := some c.user_id
          api_key := some c.api_key })

end Auth

/-- Python `str.split("/")` on the character list of a string: splits at
every occurrence of the separator, keeping empty parts. -/
def pySplitSlash : List Char → List (List Char)
  | [] => [[]]
  | c :: cs =>
      if c = '/' then [] :: pySplitSlash cs
      else
        match pySplitSlash cs with
        | [] => [[c]]
        | p :: ps => (c :: p) :: ps

/-- `_validate_name` (cmd_install.py lines 270-290): unpacking
`org, resource = name.split("/")` raises unless the split yields exactly
two parts; the handler re-raises as `SystemExit`; otherwise the pair
`(org, resource)` is returned. -/
def validate_name (name : String) : Except PyError (List Char × List Char) :=
  match pySplitSlash name.data with
  | [org, resource] => .ok (org, resource)
  | _ => .error .systemExit


/-- An externally-injected discovery input whose rank exceeds its world
size; the code accepts it unvalidated. -/
def xlaRank5World2Vars : EnvVars :=
  [(XLAEnv.worldSizeKey, "2"), (XLAEnv.globalRankKey, "5")]

/-- An environment in which both credential variables are present but
`LIGHTNING_USER_ID` is the empty string. -/
def authBothSetVars : EnvVars :=
  [("LIGHTNING_USER_ID", ""), ("LIGHTNING_API_KEY", "k")]

/-- A checkpoint directory holding committed versions 1, 2, 3 and a
transient temporary file for version 4. -/
def ckptDemoDir : CkptDir Nat :=
  [⟨1, true, 10⟩, ⟨2, true, 20⟩, ⟨3, true, 30⟩, ⟨4, false, 99⟩]

lemma foldl_add_replicate_one (n : Nat) (a : ℚ) :
    List.foldl (· + ·) a (List.replicate n 1) = a + n := by
  induction n generalizing a with
  | zero => simp
  | succ n ih =>
    rw [List.replicate_succ, List.foldl_cons, ih]
    push_cast
    ring

lemma version_le_maxVersion {α : Type} (d : CkptDir α) (e : CkptEntry α)
    (h : e ∈ d) : e.version ≤ CheckpointCoordinator.maxVersion d := by
  induction d with
  | nil => cases h
  | cons x d ih =>
    rcases List.mem_cons.mp h with rfl | hmem
    · exact Nat.le_max_left _ _
    · exact Nat.le_trans (ih hmem) (Nat.le_max_right _ _)

lemma latestCommitted_append_fresh {α : Type} (d : CkptDir α) (x : CkptEntry α)
    (hc : x.committed = true)
    (hv : ∀ e ∈ d, e.version < x.version) :
    CheckpointCoordinator.latestCommitted (d ++ [x]) = some x := by
  induction d with
  | nil => simp [CheckpointCoordinator.latestCommitted, hc]
  | cons e d ih =>
    have ih' := ih (fun e' he' => hv e' (List.mem_cons_of_mem _ he'))
    have hlt : e.version < x.version := hv e (List.mem_cons_self _ _)
    have : ¬ x.version < e.version := Nat.not_lt.mpr (Nat.le_of_lt hlt)
    simp only [List.cons_append, CheckpointCoordinator.latestCommitted, List.append_eq]
    rw [ih']
    simp [this]

lemma pySplitSlash_ne_nil (cs : List Char) : pySplitSlash cs ≠ [] := by
  induction cs with
  | nil => simp [pySplitSlash]
  | cons c cs ih =>
    by_cases hc : c = '/'
    · simp [pySplitSlash, hc]
    · cases h : pySplitSlash cs with
      | nil => simp [pySplitSlash, hc, h]
      | cons p ps => simp [pySplitSlash, hc, h]

lemma length_pySplitSlash (cs : List Char) :
    (pySplitSlash cs).length = cs.count '/' + 1 := by
  induction cs with
  | nil => simp [pySplitSlash]
  | cons c cs ih =>
    by_cases hc : c = '/'
    · simp [pySplitSlash, hc, List.count_cons, ih]
    · cases h : pySplitSlash cs with
      | nil => exact absurd h (pySplitSlash_ne_nil cs)
      | cons p ps =>
        rw [h] at ih
        simp only [pySplitSlash, if_neg hc, h, List.length_cons] at ih ⊢
        simp [List.count_cons, hc, ih]

lemma pySplitSlash_no_slash (cs : List Char) (h : ∀ c ∈ cs, c ≠ '/') :
    pySplitSlash cs = [cs] := by
  induction cs with
  | nil => simp [pySplitSlash]
  | cons c cs ih =>
    have hc : c ≠ '/' := h c (List.mem_cons_self _ _)
    have ih' := ih (fun x hx => h x (List.mem_cons_of_mem _ hx))
    simp [pySplitSlash, hc, ih']

lemma pySplitSlash_append (org res : List Char) (h : ∀ c ∈ org, c ≠ '/') :
    pySplitSlash (org ++ '/' :: res) = org :: pySplitSlash res := by
  induction org with
  | nil => simp [pySplitSlash]
  | cons c org ih =>
    have hc : c ≠ '/' := h c (List.mem_cons_self _ _)
    have ih' := ih (fun x hx => h x (List.mem_cons_of_mem _ hx))
    simp [pySplitSlash, hc, ih']

/-- C1 counterexample: in the tested non-externally-launched variant, with
the repository's own test environment and no collective operation yet
issued, `set_global_rank(100)` leaves `global_rank()` at 0 — the claim
that it changes subsequent reads to 100 fails. -/
theorem C1_set_global_rank_before_collective_is_ignored :
    (XLAEnvironment.construct xlaTestVars).collectiveIssued = false ∧
    ((XLAEnvironment.construct xlaTestVars).set_global_rank 100).global_rank = .ok 0 ∧
    (Except.ok 0 : Except PyError Nat) ≠ .ok 100 :=
  ⟨rfl, rfl, by simp⟩

/-- C1 (amended): for the tested non-externally-launched variant,
`set_global_rank` and `set_world_size` are no-ops both before and after
any collective operation: `global_rank()` and `world_size()` always
report the discovered values. -/
theorem C1_xla_setters_always_noop (s : XLAEnvironment) (r w : Nat) :
    (s.set_global_rank r).global_rank = s.global_rank ∧
    (s.set_world_size w).world_size = s.world_size ∧
    (s.issueCollective.set_global_rank r).global_rank = s.issueCollective.global_rank ∧
    (s.issueCollective.set_world_size w).world_size = s.issueCollective.world_size :=
  ⟨rfl, rfl, rfl, rfl⟩

/-- C2 counterexample: with no discovery keys present, reading
`main_address` and `main_port` fails with `KeyError`, which is not
`ConfigurationError`. -/
theorem C2_missing_key_error_is_keyerror_not_configurationerror :
    (XLAEnvironment.construct []).main_address = .error .keyError ∧
    (XLAEnvironment.construct []).main_port = .error .keyError ∧
    PyError.keyError ≠ PyError.configurationError :=
  ⟨rfl, rfl, by decide⟩

/-- C2 (amended): reading `main_address` (resp. `main_port`) when the
required discovery key is absent raises `KeyError` — a hard failure
rather than a silent default, but not `ConfigurationError`. -/
theorem C2_missing_key_raises_keyerror (e : EnvVars)
    (ha : e.get XLAEnv.addressKey = none) (hp : e.get XLAEnv.portKey = none) :
    (XLAEnvironment.construct e).main_address = .error .keyError ∧
    (XLAEnvironment.construct e).main_port = .error .keyError := by
  constructor
  · simp [XLAEnvironment.main_address, XLAEnvironment.construct, ha]
  · simp [XLAEnvironment.main_port, XLAEnvironment.construct, hp]

/-- C2 witness: both discovery keys are absent from the empty environment
and the amended theorem applies there. -/
theorem C2_missing_key_raises_keyerror_witness :
    (EnvVars.get [] XLAEnv.addressKey = none) ∧
    (EnvVars.get [] XLAEnv.portKey = none) ∧
    ((XLAEnvironment.construct []).main_address = .error .keyError ∧
     (XLAEnvironment.construct []).main_port = .error .keyError) :=
  ⟨rfl, rfl, C2_missing_key_raises_keyerror [] rfl rfl⟩

/-- C3 counterexample: an externally-injected discovery input with world
size 2 and global rank 5 is accepted unvalidated, so the constructed
topology violates `global_rank() < world_size()`. -/
theorem C3_injected_rank_exceeds_world_size :
    (XLAEnvironment.construct xlaRank5World2Vars).global_rank = .ok 5 ∧
    (XLAEnvironment.construct xlaRank5World2Vars).world_size = .ok 2 ∧
    ¬ (5 < 2) :=
  ⟨rfl, rfl, by decide⟩

/-- C3 (amended): the constructed topology reports the injected discovery
values verbatim with no validation, so `0 ≤ global_rank() < world_size()`
holds exactly for those inputs whose injected values already satisfy
it. -/
theorem C3_injected_values_reported_verbatim (e : EnvVars) (ws gs : String)
    (w g : Nat)
    (hw : e.get XLAEnv.worldSizeKey = some ws) (hpw : pyInt ws = some w)
    (hg : e.get XLAEnv.globalRankKey = some gs) (hpg : pyInt gs = some g)
    (hlt : g < w) :
    (XLAEnvironment.construct e).world_size = .ok w ∧
    (XLAEnvironment.construct e).global_rank = .ok g ∧
    g < w := by
  refine ⟨?_, ?_, hlt⟩
  · simp [XLAEnvironment.world_size, XLAEnvironment.construct, EnvVars.getNat, hw, hpw]
  · simp [XLAEnvironment.global_rank, XLAEnvironment.construct, EnvVars.getNat, hg, hpg]

/-- C3 witness: the repository test environment injects world size 1 and
global rank 0, which satisfy the bound. -/
theorem C3_injected_values_reported_verbatim_witness :
    (xlaTestVars.get XLAEnv.worldSizeKey = some "1" ∧ pyInt "1" = some 1 ∧
     xlaTestVars.get XLAEnv.globalRankKey = some "0" ∧ pyInt "0" = some 0 ∧
     0 < 1) ∧
    ((XLAEnvironment.construct xlaTestVars).world_size = .ok 1 ∧
     (XLAEnvironment.construct xlaTestVars).global_rank = .ok 0 ∧ 0 < 1) :=
  ⟨⟨rfl, rfl, rfl, rfl, by decide⟩,
   C3_injected_values_reported_verbatim xlaTestVars "1" "0" 1 0 rfl rfl rfl rfl
     (by decide)⟩

/-- C4 counterexample: the XLA variant reads every rank/topology field and
`main_address`/`main_port` from injected environment configuration, yet
`creates_processes_externally` is false, not true. -/
theorem C4_reads_injected_configuration_but_not_external :
    (XLAEnvironment.construct xlaTestVars).main_address = .ok "1.2.3.4" ∧
    (XLAEnvironment.construct xlaTestVars).main_port = .ok 500 ∧
    (XLAEnvironment.construct xlaTestVars).world_size = .ok 1 ∧
    (XLAEnvironment.construct xlaTestVars).global_rank = .ok 0 ∧
    (XLAEnvironment.construct xlaTestVars).local_rank = .ok 2 ∧
    (XLAEnvironment.construct xlaTestVars).node_rank = .ok 3 ∧
    (XLAEnvironment.construct xlaTestVars).creates_processes_externally = false ∧
    false ≠ true :=
  ⟨rfl, rfl, rfl, rfl, rfl, rfl, rfl, by decide⟩

/-- C4 (amended): the XLA variant reads `main_address` from injected
configuration (whenever the discovery key is present the injected value is
returned), yet `creates_processes_externally()` returns false. -/
theorem C4_env_reading_variant_not_external (e : EnvVars) (a : String)
    (ha : e.get XLAEnv.addressKey = some a) :
    (XLAEnvironment.construct e).main_address = .ok a ∧
    (XLAEnvironment.construct e).creates_processes_externally = false := by
  constructor
  · simp [XLAEnvironment.main_address, XLAEnvironment.construct, ha]
  · rfl

/-- C4 witness: the test environment provides the address key. -/
theorem C4_env_reading_variant_not_external_witness :
    (xlaTestVars.get XLAEnv.addressKey = some "1.2.3.4") ∧
    ((XLAEnvironment.construct xlaTestVars).main_address = .ok "1.2.3.4" ∧
     (XLAEnvironment.construct xlaTestVars).creates_processes_externally = false) :=
  ⟨rfl, C4_env_reading_variant_not_external xlaTestVars "1.2.3.4" rfl⟩

/-- C5: constructed with no discovery keys present at all, the topology
reports world_size 1, global_rank 0, local_rank 0 and node_rank 0. -/
theorem C5_standalone_defaults :
    (XLAEnvironment.construct []).world_size = .ok 1 ∧
    (XLAEnvironment.construct []).global_rank = .ok 0 ∧
    (XLAEnvironment.construct []).local_rank = .ok 0 ∧
    (XLAEnvironment.construct []).node_rank = .ok 0 :=
  ⟨rfl, rfl, rfl, rfl⟩

/-- C6: `reduce` with op SUM over a world of size N in which every rank
contributes 1 returns N on every rank; the model is a pure function of
the rank-ordered contribution list, so repeated runs with the same rank
ordering give the same value. -/
theorem C6_reduce_sum_ones_eq_world_size (N r : Nat) (_hr : r < N) :
    CollectiveBackend.reduce (List.replicate N 1) .sum r = N := by
  show List.foldl (· + ·) 0 (List.replicate N 1) = (N : ℚ)
  rw [foldl_add_replicate_one]
  simp

/-- C6 witness: a world of size 3, observed from rank 1. -/
theorem C6_reduce_sum_ones_witness :
    1 < 3 ∧ CollectiveBackend.reduce (List.replicate 3 1) .sum 1 = 3 :=
  ⟨by decide, C6_reduce_sum_ones_eq_world_size 3 1 (by decide)⟩

/-- C7: `save(S)` followed by `restore()` yields exactly S for every state
and every prior directory content, and `find_latest` over a directory
holding committed versions 1, 2, 3 (plus a stray temporary file) returns
the path for version 3. -/
theorem C7_checkpoint_roundtrip_and_find_latest :
    (∀ (α : Type) (S : α) (d : CkptDir α),
        CheckpointCoordinator.restore (CheckpointCoordinator.save d S) = .ok S) ∧
    CheckpointCoordinator.find_latest ckptDemoDir =
      some (CheckpointCoordinator.pathFor 3) := by
  constructor
  · intro α S d
    have hfresh : ∀ e ∈ d, e.version < CheckpointCoordinator.maxVersion d + 1 :=
      fun e he => Nat.lt_succ_of_le (version_le_maxVersion d e he)
    have h := latestCommitted_append_fresh d
      ⟨CheckpointCoordinator.maxVersion d + 1, true, S⟩ rfl hfresh
    simp [CheckpointCoordinator.restore, CheckpointCoordinator.save, h]
  · rfl

/-- C8 counterexample: with both `LIGHTNING_USER_ID` and
`LIGHTNING_API_KEY` present in the environment (the former set to the
empty string), construction raises `ValueError`, refuting the claim that
construction succeeds whenever both are set. -/
theorem C8_both_set_but_empty_user_id_raises :
    (authBothSetVars.get "LIGHTNING_USER_ID").isSome = true ∧
    (authBothSetVars.get "LIGHTNING_API_KEY").isSome = true ∧
    Auth.post_init authBothSetVars = .error .valueError :=
  ⟨rfl, rfl, rfl⟩

/-- C8 (amended): construction succeeds exactly unless `LIGHTNING_API_KEY`
holds a non-empty string while `LIGHTNING_USER_ID` is absent or empty
(Python truthiness); in the failing case the error is `ValueError`. -/
theorem C8_post_init_succeeds_iff (env : EnvVars) :
    (∃ s, Auth.post_init env = .ok s) ↔
      ¬ (Auth.truthy (env.get "LIGHTNING_API_KEY") = true ∧
         Auth.truthy (env.get "LIGHTNING_USER_ID") = false) := by
  unfold Auth.post_init
  by_cases hk : Auth.truthy (env.get "LIGHTNING_API_KEY") <;>
    by_cases hu : Auth.truthy (env.get "LIGHTNING_USER_ID") <;>
      simp [hk, hu]

/-- C9: `save(username=u, user_id=i, api_key=k)` followed by `load()` on
the object returns true and leaves the `username`, `user_id` and `api_key`
fields equal to the saved values. -/
theorem C9_auth_save_load_roundtrip (s : Auth.State)
    (token username user_id api_key : String) :
    (Auth.load (Auth.save s token user_id api_key username).2
        (Auth.save s token user_id api_key username).1).1 = true ∧
    (Auth.load (Auth.save s token user_id api_key username).2
        (Auth.save s token user_id api_key username).1).2.username = some username ∧
    (Auth.load (Auth.save s token user_id api_key username).2
        (Auth.save s token user_id api_key username).1).2.user_id = some user_id ∧
    (Auth.load (Auth.save s token user_id api_key username).2
        (Auth.save s token user_id api_key username).1).2.api_key = some api_key :=
  ⟨rfl, rfl, rfl, rfl⟩

/-- C10: `_validate_name` raises `SystemExit` for every name whose number
of `/` separators differs from one, and returns the pair (org, resource)
for every name of the form org ++ "/" ++ resource whose two parts are
slash-free. -/
theorem C10_validate_name_spec (name : String) :
    (name.data.count '/' ≠ 1 → validate_name name = .error .systemExit) ∧
    (∀ org res : List Char, (∀ c ∈ org, c ≠ '/') → (∀ c ∈ res, c ≠ '/') →
      name.data = org ++ '/' :: res → validate_name name = .ok (org, res)) := by
  constructor
  · intro hcount
    have hlen : (pySplitSlash name.data).length ≠ 2 := by
      rw [length_pySplitSlash]
      omega
    cases h : pySplitSlash name.data with
    | nil => simp [validate_name, h]
    | cons a t =>
      cases t with
      | nil => simp [validate_name, h]
      | cons b t2 =>
        cases t2 with
        | nil =>
          rw [h] at hlen
          simp at hlen
        | cons c t3 => simp [validate_name, h]
  · intro org res horg hres hname
    unfold validate_name
    rw [hname, pySplitSlash_append org res horg, pySplitSlash_no_slash res hres]

/-- C10 witness: "a/b" splits into ("a", "b"); "ab" has no separator and
exits. -/
theorem C10_validate_name_witness :
    validate_name "a/b" = .ok (['a'], ['b']) ∧
    validate_name "ab" = .error .systemExit :=
  ⟨(C10_validate_name_spec "a/b").2 ['a'] ['b'] (by decide) (by decide) rfl,
   (C10_validate_name_spec "ab").1 (by decide)⟩
